import Mathlib

/-!
Verification of the conversation/request orchestration layer in src/ai.ts
(class AIModel, together with its provider configuration and retry logic).

The embedding below translates the TypeScript source into Lean:
JavaScript falsy-coalescing (`a || b`) on optional values is modelled by
the orFalsy helpers (a value that is the empty string or zero falls back),
while nullish coalescing (`a ?? b`) is Option.getD.  Asynchronous code is
modelled by explicit state passing: an operation that may be re-invoked on
retry is a function from the attempt number to an Except value, and each
entry point returns its result together with the post-call conversation
state and an observation log (backend invocation count, onChunk calls).
-/

namespace AILib

/-- Message roles, src/ai.ts line 85. -/
inductive Role where
  | system
  | user
  | assistant
deriving DecidableEq, Repr, BEq

/-- The roles callers may pass to addMessage (src/ai.ts line 469 restricts
the parameter to user or assistant). -/
inductive ChatRole where
  | user
  | assistant
deriving DecidableEq, Repr, BEq

def ChatRole.toRole : ChatRole → Role
  | ChatRole.user => Role.user
  | ChatRole.assistant => Role.assistant

/-- One content part of a structured message, src/ai.ts lines 67-77. -/
inductive MessageContent where
  | text (t : String)
  | imageUrl (url : String)
deriving DecidableEq, Repr, BEq

/-- Message content is a plain string or a list of parts, src/ai.ts line 87. -/
inductive Content where
  | str (s : String)
  | parts (ps : List MessageContent)
deriving DecidableEq, Repr, BEq

/-- A conversation message, src/ai.ts lines 83-88. -/
structure Message where
  role : Role
  content : Content
deriving DecidableEq, Repr, BEq

/-- Provider profile, src/ai.ts lines 12-21 (headers only feed the HTTP
client and are omitted). -/
structure AIProviderConfig where
  name : String
  baseURL : String
  defaultModel : String
deriving DecidableEq, Repr

/-- Constructor-time configuration, src/ai.ts lines 27-46.  Optional fields
are Options; an absent field is none.  Temperature is modelled as a rational
number since the code only ever selects it, never computes with it. -/
structure AIModelConfig where
  apiKey : String
  provider : Option String
  model : Option String
  temperature : Option ℚ
  maxTokens : Option Nat
  systemPrompt : Option String
  debug : Option Bool
  timeout : Option Nat
  retryAttempts : Option Nat
deriving DecidableEq, Repr

/-- Per-request overrides, src/ai.ts lines 52-61. -/
structure RequestOptions where
  model : Option String
  temperature : Option ℚ
  maxTokens : Option Nat
  stream : Option Bool
deriving DecidableEq, Repr

/-- RequestOptions with every field absent; used where the source spreads a
possibly-undefined options object. -/
def emptyOptions : RequestOptions := ⟨none, none, none, none⟩

/-- JavaScript `opt || d` on an optional string: an absent or empty string
falls back to the default. -/
def orFalsyStr (o : Option String) (d : String) : String :=
  match o with
  | some s => if s = "" then d else s
  | none => d

/-- JavaScript `opt || d` on an optional number: an absent or zero value
falls back to the default. -/
def orFalsyNat (o : Option Nat) (d : Nat) : Nat :=
  match o with
  | some n => if n = 0 then d else n
  | none => d

/-- JavaScript `opt || d` on an optional boolean. -/
def orFalsyBool (o : Option Bool) (d : Bool) : Bool :=
  match o with
  | some b => b || d
  | none => d

/-- The fully-resolved instance configuration
(Required of AIModelConfig minus apiKey and provider), src/ai.ts line 317. -/
structure Config where
  model : String
  temperature : ℚ
  maxTokens : Nat
  systemPrompt : String
  debug : Bool
  retryAttempts : Nat
  timeout : Nat
deriving DecidableEq, Repr

/-- Constructor configuration resolution, src/ai.ts lines 360-368:
model uses `config.model || provider.defaultModel`, temperature uses
`config.temperature ?? 0.7`, maxTokens `config.maxTokens || 1000`,
systemPrompt `config.systemPrompt || two-quote-empty`, debug `?? false`,
retryAttempts `|| 3`, timeout `|| 30000`. -/
def initConfig (config : AIModelConfig) (provider : AIProviderConfig) : Config :=
  { model := orFalsyStr config.model provider.defaultModel
    temperature := config.temperature.getD (7/10)
    maxTokens := orFalsyNat config.maxTokens 1000
    systemPrompt := orFalsyStr config.systemPrompt ""
    debug := config.debug.getD false
    retryAttempts := orFalsyNat config.retryAttempts 3
    timeout := orFalsyNat config.timeout 30000 }

/-- The mutable state of an AIModel instance that the claims concern:
the message history and the resolved configuration. -/
structure ModelState where
  messages : List Message
  config : Config
deriving DecidableEq, Repr

/-- addMessage, src/ai.ts lines 469-485: push a message onto the history. -/
def addMessage (s : ModelState) (content : Content) (role : ChatRole) : ModelState :=
  { s with messages := s.messages ++ [⟨role.toRole, content⟩] }

/-- addUserMessage, src/ai.ts lines 492-494. -/
def addUserMessage (s : ModelState) (content : Content) : ModelState :=
  addMessage s content ChatRole.user

/-- addAssistantMessage, src/ai.ts lines 501-503. -/
def addAssistantMessage (s : ModelState) (content : Content) : ModelState :=
  addMessage s content ChatRole.assistant

/-- getMessages, src/ai.ts lines 538-540: the value of the returned
snapshot.  Reference-level copy semantics are modelled in RefModel below. -/
def getMessages (s : ModelState) : List Message :=
  s.messages

/-- getSystemPrompt, src/ai.ts lines 403-405. -/
def getSystemPrompt (s : ModelState) : String :=
  s.config.systemPrompt

/-- clearMessages, src/ai.ts lines 546-551: empty the history only. -/
def clearMessages (s : ModelState) : ModelState :=
  { s with messages := [] }

/-- reset, src/ai.ts lines 557-564: empty the history and the system prompt. -/
def reset (s : ModelState) : ModelState :=
  { s with messages := [], config := { s.config with systemPrompt := "" } }

/-- buildMessages, src/ai.ts lines 625-634: prepend a system message when
the system prompt is truthy (non-empty). -/
def buildMessages (s : ModelState) : List Message :=
  (if s.config.systemPrompt = "" then [] else
    [⟨Role.system, Content.str s.config.systemPrompt⟩]) ++ s.messages

/-- The message of the Error thrown at src/ai.ts line 640; the spec names
this condition EmptyConversationError. -/
def EmptyConversationError : String :=
  "No messages to send. Add at least one message or set a system prompt."

/-- The message of the Error thrown at src/ai.ts line 646; the spec names
this condition NoUserTurnError. -/
def NoUserTurnError : String :=
  "No user messages to send. Add at least one user message."

/-- validateMessages, src/ai.ts lines 637-648. -/
def validateMessages (s : ModelState) : Except String Unit :=
  let messages := buildMessages s
  if messages.length = 0 then
    Except.error EmptyConversationError
  else
    let hasUserMessage := messages.any (fun m => decide (m.role = Role.user))
    if hasUserMessage then Except.ok () else Except.error NoUserTurnError

/-- The result of mergeOptions, src/ai.ts lines 651-658. -/
structure MergedOptions where
  model : String
  temperature : ℚ
  maxTokens : Nat
  stream : Bool
deriving DecidableEq, Repr

/-- mergeOptions, src/ai.ts lines 651-658: model and maxTokens use `||`
(falsy coalescing), temperature uses `??` (nullish coalescing), stream uses
`options?.stream || false`. -/
def mergeOptions (s : ModelState) (options : Option RequestOptions) : MergedOptions :=
  { model := orFalsyStr (options.bind RequestOptions.model) s.config.model
    temperature := (options.bind RequestOptions.temperature).getD s.config.temperature
    maxTokens := orFalsyNat (options.bind RequestOptions.maxTokens) s.config.maxTokens
    stream := orFalsyBool (options.bind RequestOptions.stream) false }

/-- Observable outcome of makeRequest: the returned or thrown value, how
many times the operation was invoked, and the (attemptNumber, delayMs)
arguments of each diagnostic/backoff callback invocation. -/
structure RetryLog (A : Type) where
  result : Except String A
  calls : Nat
  retries : List (Nat × Nat)
deriving Repr

/-- The retry loop body of makeRequest, src/ai.ts lines 662-680, as a
recursion over the remaining attempt numbers.  On failure before the last
attempt the (attempt, 2 ^ attempt * 1000) backoff event is recorded; after
the loop the raw last error (or the fallback message when no attempt ran)
is thrown, src/ai.ts line 687. -/
def retryLoop {A : Type} (op : Nat → Except String A) (retryAttempts : Nat) :
    List Nat → Option String → RetryLog A
  | [], lastError =>
    ⟨Except.error (lastError.getD "Request failed after all retry attempts"), 0, []⟩
  | attempt :: rest, _ =>
    match op attempt with
    | Except.ok v => ⟨Except.ok v, 1, []⟩
    | Except.error e =>
      let r := retryLoop op retryAttempts rest (some e)
      ⟨r.result, r.calls + 1,
        if attempt < retryAttempts then (attempt, 2 ^ attempt * 1000) :: r.retries
        else r.retries⟩

/-- makeRequest, src/ai.ts lines 661-688: attempts are numbered
1 .. retryAttempts. -/
def makeRequest {A : Type} (op : Nat → Except String A) (retryAttempts : Nat) : RetryLog A :=
  retryLoop op retryAttempts (List.range' 1 retryAttempts) none

/-- The message object of a choice, src/ai.ts line 739. -/
structure ChoiceMessage where
  content : Option String
deriving DecidableEq, Repr

/-- One completion choice. -/
structure Choice where
  message : Option ChoiceMessage
  finish_reason : Option String
deriving DecidableEq, Repr

/-- Usage block of a completion. -/
structure Usage where
  prompt_tokens : Nat
  completion_tokens : Nat
  total_tokens : Nat
deriving DecidableEq, Repr

/-- A raw non-streaming backend completion. -/
structure Completion where
  choices : List Choice
  usage : Option Usage
  model : String
deriving DecidableEq, Repr

/-- Usage of the canonical response, src/ai.ts lines 98-105. -/
structure UsageOut where
  promptTokens : Nat
  completionTokens : Nat
  totalTokens : Nat
deriving DecidableEq, Repr

/-- Canonical response shape, src/ai.ts lines 94-110. -/
structure AIResponse where
  content : String
  usage : UsageOut
  model : String
  finishReason : Option String
deriving DecidableEq, Repr

/-- The parameter object handed to the backend client, src/ai.ts
lines 730-736 and 812-818. -/
structure ChatRequest where
  model : String
  messages : List Message
  temperature : ℚ
  max_tokens : Nat
  stream : Bool
deriving DecidableEq, Repr

/-- Outcome of a send call: result, post-call state, and how many times the
backend was invoked. -/
structure SendOutcome where
  result : Except String AIResponse
  state : ModelState
  backendCalls : Nat
deriving Repr

/-- send, src/ai.ts lines 705-780.  validateMessages throws before the try
block, so its errors propagate raw and the backend is never consulted; a
backend failure surviving the retry loop is wrapped as
an Error whose message is AI API Error: followed by the cause message
(line 778); on success the assistant message is pushed (line 743) and the
canonical response built (lines 745-754). -/
def send (s : ModelState) (backend : ChatRequest → Nat → Except String Completion)
    (options : Option RequestOptions) : SendOutcome :=
  match validateMessages s with
  | Except.error e => ⟨Except.error e, s, 0⟩
  | Except.ok _ =>
    let messages := buildMessages s
    let config := mergeOptions s options
    let req : ChatRequest := ⟨config.model, messages, config.temperature, config.maxTokens, false⟩
    let r := makeRequest (backend req) s.config.retryAttempts
    match r.result with
    | Except.error e => ⟨Except.error ("AI API Error: " ++ e), s, r.calls⟩
    | Except.ok completion =>
      let content := ((completion.choices.head?.bind Choice.message).bind ChoiceMessage.content).getD ""
      ⟨Except.ok
        { content := content
          usage :=
            { promptTokens := (completion.usage.map Usage.prompt_tokens).getD 0
              completionTokens := (completion.usage.map Usage.completion_tokens).getD 0
              totalTokens := (completion.usage.map Usage.total_tokens).getD 0 }
          model := completion.model
          finishReason := completion.choices.head?.bind Choice.finish_reason }
        , { s with messages := s.messages ++ [⟨Role.assistant, Content.str content⟩] }
        , r.calls⟩

/-- sendMultipleMessages, src/ai.ts lines 611-618: clear the history, append
the given messages, dispatch. -/
def sendMultipleMessages (s : ModelState) (msgs : List (ChatRole × String))
    (backend : ChatRequest → Nat → Except String Completion)
    (options : Option RequestOptions) : SendOutcome :=
  let s1 := clearMessages s
  let s2 := msgs.foldl (fun st rc => addMessage st (Content.str rc.2) rc.1) s1
  send s2 backend options

/-- Delta of a streaming chunk choice. -/
structure StreamDelta where
  content : Option String
deriving DecidableEq, Repr

/-- One choice of a streaming chunk. -/
structure StreamChoice where
  delta : Option StreamDelta
deriving DecidableEq, Repr

/-- One streaming delta chunk. -/
structure StreamChunk where
  choices : List StreamChoice
deriving DecidableEq, Repr

/-- A created stream: the finite sequence of chunks it yields, followed by
an optional error raised while iterating (after the listed chunks). -/
structure StreamData where
  chunks : List StreamChunk
  terminalError : Option String
deriving DecidableEq, Repr

/-- The text extracted from one chunk,
`chunk.choices[0]?.delta?.content || empty`, src/ai.ts line 825. -/
def chunkContent (c : StreamChunk) : String :=
  ((c.choices.head?.bind StreamChoice.delta).bind StreamDelta.content).getD ""

/-- The for-await accumulation loop, src/ai.ts lines 821-831: returns the
accumulated full content and the list of onChunk invocation arguments (only
chunks with non-empty extracted content trigger the callback). -/
def processChunks (chunks : List StreamChunk) : String × List String :=
  chunks.foldl
    (fun acc c =>
      let content := chunkContent c
      if content = "" then acc else (acc.1 ++ content, acc.2 ++ [content]))
    ("", [])

/-- Outcome of a stream call: result, post-call state, the arguments of the
onChunk invocations in order, and how many times the backend (stream
creation) was invoked. -/
structure StreamOutcome where
  result : Except String String
  state : ModelState
  onChunkCalls : List String
  backendCalls : Nat
deriving Repr

/-- stream, src/ai.ts lines 792-857.  Only the stream-creating backend call
sits inside makeRequest (lines 811-819); iterating the created stream is
outside it, so an iteration failure is wrapped once as
an Error whose message is AI Stream Error: followed by the cause message
(line 855) with no retry.  On success the single assistant message with the
accumulated content is pushed (line 836). -/
def stream (s : ModelState) (backend : ChatRequest → Nat → Except String StreamData)
    (options : Option RequestOptions) : StreamOutcome :=
  match validateMessages s with
  | Except.error e => ⟨Except.error e, s, [], 0⟩
  | Except.ok _ =>
    let messages := buildMessages s
    let config := mergeOptions s (some { options.getD emptyOptions with stream := some true })
    let req : ChatRequest := ⟨config.model, messages, config.temperature, config.maxTokens, true⟩
    let r := makeRequest (backend req) s.config.retryAttempts
    match r.result with
    | Except.error e => ⟨Except.error ("AI Stream Error: " ++ e), s, [], r.calls⟩
    | Except.ok sd =>
      let p := processChunks sd.chunks
      match sd.terminalError with
      | some e => ⟨Except.error ("AI Stream Error: " ++ e), s, p.2, r.calls⟩
      | none =>
        ⟨Except.ok p.1
          , { s with messages := s.messages ++ [⟨Role.assistant, Content.str p.1⟩] }
          , p.2, r.calls⟩

namespace RefModel

/-!
A minimal reference (heap) model for the message-history array, needed to
express the defensive-copy behaviour of getMessages: in JavaScript
`this.messages` is a mutable array reference, and getMessages returns
`[...this.messages]`, a freshly allocated array holding a copy of the
contents (src/ai.ts lines 538-540).  A heap is a list of array cells; an
array reference is an index into it.
-/

/-- A heap of array cells. -/
structure Heap where
  cells : List (List Message)
deriving Repr

/-- Dereference an array reference. -/
def readRef (h : Heap) (r : Nat) : List Message :=
  (h.cells.get? r).getD []

/-- In-place mutation of the array a reference points to. -/
def writeRef (h : Heap) (r : Nat) (v : List Message) : Heap :=
  ⟨h.cells.set r v⟩

/-- Allocate a fresh array holding v; returns the new heap and the fresh
reference. -/
def allocRef (h : Heap) (v : List Message) : Heap × Nat :=
  (⟨h.cells ++ [v]⟩, h.cells.length)

/-- The message built from one addUserMessage/addAssistantMessage call. -/
def mkMessage (rc : ChatRole × Content) : Message :=
  ⟨rc.1.toRole, rc.2⟩

/-- addMessage on the heap model: `this.messages.push(...)` mutates the
instance cell in place, src/ai.ts line 470. -/
def addMessageRef (h : Heap) (r : Nat) (rc : ChatRole × Content) : Heap :=
  writeRef h r (readRef h r ++ [mkMessage rc])

/-- A sequence of addUserMessage/addAssistantMessage calls. -/
def addMessagesRef (h : Heap) (r : Nat) (calls : List (ChatRole × Content)) : Heap :=
  calls.foldl (fun hh rc => addMessageRef hh r rc) h

/-- getMessages on the heap model: return `[...this.messages]`, a freshly
allocated array with copied contents, src/ai.ts line 539. -/
def getMessagesRef (h : Heap) (r : Nat) : Heap × Nat :=
  allocRef h (readRef h r)

end RefModel

/-! Helper lemmas. -/

/-- Folding string concatenation over a list factors the initial
accumulator out to the left. -/
theorem foldl_strAppend_init (l : List String) :
    ∀ a : String, l.foldl (fun r s => r ++ s) a = a ++ l.foldl (fun r s => r ++ s) "" := by
  induction l with
  | nil => intro a; simp
  | cons x xs ih =>
    intro a
    simp only [List.foldl]
    rw [ih (a ++ x), ih ("" ++ x)]
    simp [String.append_assoc]

/-- String.join splits off its head. -/
theorem stringJoin_cons (a : String) (l : List String) :
    String.join (a :: l) = a ++ String.join l := by
  simp only [String.join, List.foldl]
  rw [foldl_strAppend_init l ("" ++ a)]
  simp

/-- The stream accumulation loop computes the concatenation of every chunk
content together with the list of non-empty contents in order. -/
theorem processChunks_eq (chunks : List StreamChunk) :
    processChunks chunks =
      (String.join (chunks.map chunkContent),
       (chunks.map chunkContent).filter (fun c => c ≠ "")) := by
  suffices h : ∀ acc : String × List String,
      chunks.foldl
        (fun acc c =>
          let content := chunkContent c
          if content = "" then acc else (acc.1 ++ content, acc.2 ++ [content])) acc =
      (acc.1 ++ String.join (chunks.map chunkContent),
       acc.2 ++ (chunks.map chunkContent).filter (fun c => c ≠ "")) by
    rw [processChunks, h ("", [])]
    simp
  induction chunks with
  | nil =>
    intro acc
    simp [String.join]
  | cons c rest ih =>
    intro acc
    simp only [List.foldl, List.map]
    by_cases hc : chunkContent c = ""
    · rw [ih]
      simp [hc, stringJoin_cons, List.filter]
    · rw [ih]
      simp [hc, stringJoin_cons, List.filter, String.append_assoc]

/-- The retry loop only looks at the operation on the attempt numbers it
actually visits. -/
theorem retryLoop_ext {A : Type} (op op2 : Nat → Except String A) (n : Nat) :
    ∀ (l : List Nat) (lastError : Option String), (∀ i ∈ l, op2 i = op i) →
      retryLoop op2 n l lastError = retryLoop op n l lastError := by
  intro l
  induction l with
  | nil => intro lastError _; rfl
  | cons a rest ih =>
    intro lastError hagree
    simp only [retryLoop]
    rw [hagree a (List.mem_cons_self a rest)]
    cases hop : op a with
    | ok v => rfl
    | error e =>
      dsimp only
      rw [ih (some e) (fun i hi => hagree i (List.mem_cons_of_mem a hi))]

/-- makeRequest never invokes the operation outside attempts 1..n. -/
theorem makeRequest_ext {A : Type} (op op2 : Nat → Except String A) (n : Nat)
    (hagree : ∀ i, 1 ≤ i → i ≤ n → op2 i = op i) :
    makeRequest op2 n = makeRequest op n := by
  unfold makeRequest
  exact retryLoop_ext op op2 n (List.range' 1 n) none
    (fun i hi => by
      rw [List.mem_range'] at hi
      obtain ⟨k, hk, hik⟩ := hi
      exact hagree i (by omega) (by omega))

/-- When the first attempt succeeds, makeRequest returns it after exactly
one invocation and no backoff. -/
theorem makeRequest_first_ok {A : Type} (op : Nat → Except String A) (n : Nat) (v : A)
    (hn : 1 ≤ n) (hop : op 1 = Except.ok v) :
    makeRequest op n = ⟨Except.ok v, 1, []⟩ := by
  obtain ⟨m, rfl⟩ : ∃ m, n = m + 1 := ⟨n - 1, by omega⟩
  unfold makeRequest
  rw [List.range'_succ]
  simp only [retryLoop, hop]

/-- An empty linearized conversation fails validation with the
EmptyConversationError message. -/
theorem validate_empty (s : ModelState) (h : buildMessages s = []) :
    validateMessages s = Except.error EmptyConversationError := by
  simp [validateMessages, h]

/-- A non-empty linearized conversation with no user turn fails validation
with the NoUserTurnError message. -/
theorem validate_noUser (s : ModelState) (h : buildMessages s ≠ [])
    (h2 : ∀ m ∈ buildMessages s, m.role ≠ Role.user) :
    validateMessages s = Except.error NoUserTurnError := by
  have hlen : ¬ (buildMessages s).length = 0 := by
    simpa [List.length_eq_zero] using h
  have hany : (buildMessages s).any (fun m => decide (m.role = Role.user)) = false := by
    simp only [List.any_eq_false]
    intro m hm
    simpa using h2 m hm
  simp [validateMessages, hlen, hany]

/-- Every send call either leaves the state untouched or succeeds. -/
theorem send_state_cases (s : ModelState)
    (backend : ChatRequest → Nat → Except String Completion)
    (options : Option RequestOptions) :
    (send s backend options).state = s ∨
      ∃ a, (send s backend options).result = Except.ok a := by
  unfold send
  split
  · exact Or.inl rfl
  · dsimp only
    split
    · exact Or.inl rfl
    · exact Or.inr ⟨_, rfl⟩

/-- Every stream call either leaves the state untouched or succeeds. -/
theorem stream_state_cases (s : ModelState)
    (backend : ChatRequest → Nat → Except String StreamData)
    (options : Option RequestOptions) :
    (stream s backend options).state = s ∨
      ∃ a, (stream s backend options).result = Except.ok a := by
  unfold stream
  split
  · exact Or.inl rfl
  · dsimp only
    split
    · exact Or.inl rfl
    · split
      · exact Or.inl rfl
      · exact Or.inr ⟨_, rfl⟩

namespace RefModel

/-- Reading the cell just written. -/
theorem readRef_writeRef_self (h : Heap) (r : Nat) (v : List Message)
    (hr : r < h.cells.length) :
    readRef (writeRef h r v) r = v := by
  simp [readRef, writeRef, List.get?_eq_getElem?, List.getElem?_set_eq_of_lt v hr]

/-- Writing one cell does not change another. -/
theorem readRef_writeRef_ne (h : Heap) (r r2 : Nat) (v : List Message)
    (hne : r ≠ r2) :
    readRef (writeRef h r v) r2 = readRef h r2 := by
  simp [readRef, writeRef, List.get?_eq_getElem?, List.getElem?_set_ne hne]

/-- Appending a cell does not disturb existing cells. -/
theorem readRef_concat_old (h : Heap) (v : List Message) (r : Nat)
    (hr : r < h.cells.length) :
    readRef ⟨h.cells ++ [v]⟩ r = readRef h r := by
  simp [readRef, List.get?_eq_getElem?, List.getElem?_append_left hr]

/-- The freshly appended cell holds the allocated value. -/
theorem readRef_concat_new (h : Heap) (v : List Message) :
    readRef ⟨h.cells ++ [v]⟩ h.cells.length = v := by
  simp [readRef, List.get?_eq_getElem?]

/-- A sequence of message additions preserves the heap size and appends the
built messages, in call order, to the instance cell. -/
theorem addMessagesRef_spec (calls : List (ChatRole × Content)) :
    ∀ (h : Heap) (r : Nat), r < h.cells.length →
      (addMessagesRef h r calls).cells.length = h.cells.length ∧
      readRef (addMessagesRef h r calls) r = readRef h r ++ calls.map mkMessage := by
  induction calls with
  | nil => intro h r _; simp [addMessagesRef]
  | cons rc rest ih =>
    intro h r hr
    have hstep : addMessagesRef h r (rc :: rest) = addMessagesRef (addMessageRef h r rc) r rest := rfl
    have hlen : (addMessageRef h r rc).cells.length = h.cells.length := by
      simp [addMessageRef, writeRef]
    have hr2 : r < (addMessageRef h r rc).cells.length := by rw [hlen]; exact hr
    obtain ⟨hl, hread⟩ := ih (addMessageRef h r rc) r hr2
    refine ⟨by rw [hstep, hl, hlen], ?_⟩
    rw [hstep, hread]
    have hone : readRef (addMessageRef h r rc) r = readRef h r ++ [mkMessage rc] :=
      readRef_writeRef_self h r _ hr
    rw [hone]
    simp

end RefModel

/-! Claim theorems. -/

/-- Claim C1, counterexample: the claim says a call-supplied options value
that is present and not undefined always wins, but mergeOptions resolves
maxTokens with falsy coalescing (src/ai.ts line 655), so the present value
some 0 loses to the BaseConfig value 1000. -/
theorem C1_counterexample :
    (⟨none, none, some 0, none⟩ : RequestOptions).maxTokens = some 0 ∧
    (mergeOptions ⟨[], ⟨"m1", 7/10, 1000, "", false, 3, 30000⟩⟩
        (some ⟨none, none, some 0, none⟩)).maxTokens = 1000 :=
  ⟨rfl, rfl⟩

/-- Claim C1, amended: per-call override precedence as implemented.  A
present temperature always wins (nullish coalescing); a present model or
maxTokens wins only when truthy (non-empty, non-zero), otherwise the
BaseConfig value is used; at construction the provider defaultModel is used
exactly when the configured model is absent or empty, so BaseConfig.model
equal to m1 survives regardless of the provider default.  This includes the
claimed examples: override temperature 1.2 beats base 0.7, and base model
m1 with no override resolves to m1. -/
theorem C1_precedence_amended (s : ModelState) (o : RequestOptions)
    (c : AIModelConfig) (p : AIProviderConfig) :
    (∀ t, o.temperature = some t → (mergeOptions s (some o)).temperature = t) ∧
    (o.temperature = none → (mergeOptions s (some o)).temperature = s.config.temperature) ∧
    (∀ m, o.model = some m → m ≠ "" → (mergeOptions s (some o)).model = m) ∧
    (o.model = none ∨ o.model = some "" → (mergeOptions s (some o)).model = s.config.model) ∧
    (∀ k, o.maxTokens = some k → k ≠ 0 → (mergeOptions s (some o)).maxTokens = k) ∧
    (o.maxTokens = none ∨ o.maxTokens = some 0 →
      (mergeOptions s (some o)).maxTokens = s.config.maxTokens) ∧
    (c.model = none ∨ c.model = some "" → (initConfig c p).model = p.defaultModel) ∧
    (∀ m, c.model = some m → m ≠ "" → (initConfig c p).model = m) := by
  refine ⟨?_, ?_, ?_, ?_, ?_, ?_, ?_, ?_⟩
  · intro t ht; simp [mergeOptions, ht]
  · intro ht; simp [mergeOptions, ht]
  · intro m hm hne; simp [mergeOptions, orFalsyStr, hm, hne]
  · rintro (hm | hm) <;> simp [mergeOptions, orFalsyStr, hm]
  · intro k hk hne; simp [mergeOptions, orFalsyNat, hk, hne]
  · rintro (hk | hk) <;> simp [mergeOptions, orFalsyNat, hk]
  · rintro (hc | hc) <;> simp [initConfig, orFalsyStr, hc]
  · intro m hm hne; simp [initConfig, orFalsyStr, hm, hne]

/-- Claim C1 witness: the amended precedence at the concrete examples of
the claim. -/
theorem C1_precedence_amended_witness :
    (mergeOptions ⟨[], ⟨"m1", 7/10, 1000, "", false, 3, 30000⟩⟩
        (some ⟨none, some (12/10), none, none⟩)).temperature = 12/10 ∧
    (mergeOptions ⟨[], ⟨"m1", 7/10, 1000, "", false, 3, 30000⟩⟩
        (some emptyOptions)).model = "m1" ∧
    (initConfig ⟨"k", none, none, none, none, none, none, none, none⟩
        ⟨"P", "https://example.com", "m2"⟩).model = "m2" ∧
    (initConfig ⟨"k", none, some "m1", none, none, none, none, none, none⟩
        ⟨"P", "https://example.com", "m2"⟩).model = "m1" := by
  refine ⟨?_, ?_, ?_, ?_⟩
  · exact (C1_precedence_amended ⟨[], ⟨"m1", 7/10, 1000, "", false, 3, 30000⟩⟩
      ⟨none, some (12/10), none, none⟩
      ⟨"k", none, none, none, none, none, none, none, none⟩
      ⟨"P", "https://example.com", "m2"⟩).1 (12/10) rfl
  · exact (C1_precedence_amended ⟨[], ⟨"m1", 7/10, 1000, "", false, 3, 30000⟩⟩
      emptyOptions
      ⟨"k", none, none, none, none, none, none, none, none⟩
      ⟨"P", "https://example.com", "m2"⟩).2.2.2.1 (Or.inl rfl)
  · exact (C1_precedence_amended ⟨[], ⟨"m1", 7/10, 1000, "", false, 3, 30000⟩⟩
      emptyOptions
      ⟨"k", none, none, none, none, none, none, none, none⟩
      ⟨"P", "https://example.com", "m2"⟩).2.2.2.2.2.2.1 (Or.inl rfl)
  · exact (C1_precedence_amended ⟨[], ⟨"m1", 7/10, 1000, "", false, 3, 30000⟩⟩
      emptyOptions
      ⟨"k", none, some "m1", none, none, none, none, none, none⟩
      ⟨"P", "https://example.com", "m2"⟩).2.2.2.2.2.2.2 "m1" rfl (by decide)

/-- Claim C2: with attempts = 3 and an operation failing on the first two
invocations and succeeding on the third, makeRequest returns the success
value, records exactly two backoff callback invocations with delays 2000 ms
then 4000 ms, invokes the operation exactly 3 times, and its outcome does
not depend on the operation beyond attempt 3 (so a fourth invocation never
happens). -/
theorem C2_retry_backoff {A : Type} (op : Nat → Except String A) (e1 e2 : String) (v : A)
    (h1 : op 1 = Except.error e1) (h2 : op 2 = Except.error e2) (h3 : op 3 = Except.ok v) :
    makeRequest op 3 = ⟨Except.ok v, 3, [(1, 2000), (2, 4000)]⟩ ∧
    ∀ op2 : Nat → Except String A, (∀ i, 1 ≤ i → i ≤ 3 → op2 i = op i) →
      makeRequest op2 3 = makeRequest op 3 := by
  constructor
  · have hr : List.range' 1 3 = [1, 2, 3] := by decide
    rw [makeRequest, hr]
    simp only [retryLoop, h1, h2, h3]
    norm_num
  · intro op2 hagree
    exact makeRequest_ext op op2 3 hagree

/-- Claim C2 witness: a concrete operation failing twice then succeeding. -/
theorem C2_retry_backoff_witness :
    makeRequest (fun n => if n < 3 then Except.error "boom" else Except.ok 42) 3 =
      ⟨Except.ok 42, 3, [(1, 2000), (2, 4000)]⟩ :=
  (C2_retry_backoff (fun n => if n < 3 then Except.error "boom" else Except.ok 42)
    "boom" "boom" 42 rfl rfl rfl).1

/-- Claim C3, counterexample: after exhausting attempts = 2 the retry
executor rethrows the raw last error itself (src/ai.ts line 687) — the
result carries exactly the message boom, with no wrapper adding a cause or
the attempt count — contradicting the claim that it throws a wrapper and
not the raw last error. -/
theorem C3_counterexample :
    makeRequest (fun _ => (Except.error "boom" : Except String Completion)) 2 =
      ⟨Except.error "boom", 2, [(1, 2000)]⟩ :=
  rfl

/-- Claim C3, amended: with attempts = 2 and an always-failing operation the
executor invokes the operation exactly twice, records one backoff of
2000 ms, and rethrows the raw last error unchanged; the send entry point
then wraps that error as a generic Error whose message is the prefix
AI API Error: followed by the cause message, with no structured cause or
attempt count. -/
theorem C3_exhaustion_amended (op : Nat → Except String Completion) (e1 e2 : String)
    (h1 : op 1 = Except.error e1) (h2 : op 2 = Except.error e2) :
    makeRequest op 2 = ⟨Except.error e2, 2, [(1, 2000)]⟩ ∧
    ∀ (s : ModelState) (backend : ChatRequest → Nat → Except String Completion)
      (options : Option RequestOptions),
      validateMessages s = Except.ok () → s.config.retryAttempts = 2 →
      (∀ req i, backend req i = op i) →
      send s backend options = ⟨Except.error ("AI API Error: " ++ e2), s, 2⟩ := by
  have hmain : makeRequest op 2 = ⟨Except.error e2, 2, [(1, 2000)]⟩ := by
    have hr : List.range' 1 2 = [1, 2] := by decide
    rw [makeRequest, hr]
    simp only [retryLoop, h1, h2]
    norm_num
  refine ⟨hmain, ?_⟩
  intro s backend options hval hretry hb
  have hreq : ∀ req, makeRequest (backend req) 2 = ⟨Except.error e2, 2, [(1, 2000)]⟩ := by
    intro req
    rw [makeRequest_ext op (backend req) 2 (fun i _ _ => hb req i), hmain]
  unfold send
  rw [hval]
  dsimp only
  rw [hretry, hreq]

/-- Claim C3 witness: a concrete valid conversation with an always-failing
backend and attempts = 2. -/
theorem C3_exhaustion_amended_witness :
    send ⟨[⟨Role.user, Content.str "hi"⟩], ⟨"m", 7/10, 1000, "", false, 2, 30000⟩⟩
        (fun _ _ => Except.error "boom") none =
      ⟨Except.error ("AI API Error: " ++ "boom"),
        ⟨[⟨Role.user, Content.str "hi"⟩], ⟨"m", 7/10, 1000, "", false, 2, 30000⟩⟩, 2⟩ :=
  (C3_exhaustion_amended (fun _ => (Except.error "boom" : Except String Completion))
    "boom" "boom" rfl rfl).2
    ⟨[⟨Role.user, Content.str "hi"⟩], ⟨"m", 7/10, 1000, "", false, 2, 30000⟩⟩
    (fun _ _ => Except.error "boom") none rfl rfl (fun _ _ => rfl)

/-- Claim C4: for every finite chunk sequence delivered by a stream created
on the first backend attempt, stream invokes onChunk exactly once per chunk
with non-empty extracted content, in arrival order, returns the full
accumulated string, and appends exactly one assistant message with that
string to the conversation state. -/
theorem C4_stream_accumulation (s : ModelState) (chunks : List StreamChunk)
    (options : Option RequestOptions)
    (hval : validateMessages s = Except.ok ())
    (hretry : 1 ≤ s.config.retryAttempts) :
    stream s (fun _ _ => Except.ok ⟨chunks, none⟩) options =
      ⟨Except.ok (String.join (chunks.map chunkContent)),
        { s with messages := s.messages ++
            [⟨Role.assistant, Content.str (String.join (chunks.map chunkContent))⟩] },
        (chunks.map chunkContent).filter (fun c => c ≠ ""),
        1⟩ := by
  unfold stream
  rw [hval]
  dsimp only
  rw [makeRequest_first_ok _ s.config.retryAttempts ⟨chunks, none⟩ hretry rfl]
  dsimp only
  rw [processChunks_eq]

/-- Claim C4 witness: the chunk contents Hel, lo, and space-world accumulate
to Hello world, each fragment reaching onChunk in order, with one assistant
message appended. -/
theorem C4_stream_accumulation_witness :
    stream ⟨[⟨Role.user, Content.str "hi"⟩], ⟨"m", 7/10, 1000, "", false, 3, 30000⟩⟩
        (fun _ _ => Except.ok
          ⟨[⟨[⟨some ⟨some "Hel"⟩⟩]⟩, ⟨[⟨some ⟨some "lo"⟩⟩]⟩, ⟨[⟨some ⟨some " world"⟩⟩]⟩], none⟩)
        none =
      ⟨Except.ok "Hello world",
        ⟨[⟨Role.user, Content.str "hi"⟩, ⟨Role.assistant, Content.str "Hello world"⟩],
          ⟨"m", 7/10, 1000, "", false, 3, 30000⟩⟩,
        ["Hel", "lo", " world"], 1⟩ := by
  have hw := C4_stream_accumulation
    ⟨[⟨Role.user, Content.str "hi"⟩], ⟨"m", 7/10, 1000, "", false, 3, 30000⟩⟩
    [⟨[⟨some ⟨some "Hel"⟩⟩]⟩, ⟨[⟨some ⟨some "lo"⟩⟩]⟩, ⟨[⟨some ⟨some " world"⟩⟩]⟩]
    none rfl (by decide)
  rw [hw]
  rfl

/-- Claim C5: whenever a send or stream call fails, the message history is
unchanged; an assistant message is appended only on success. -/
theorem C5_failure_preserves_history (s : ModelState)
    (backend : ChatRequest → Nat → Except String Completion)
    (backendS : ChatRequest → Nat → Except String StreamData)
    (options : Option RequestOptions) :
    (∀ e, (send s backend options).result = Except.error e →
      (send s backend options).state.messages = s.messages) ∧
    (∀ e, (stream s backendS options).result = Except.error e →
      (stream s backendS options).state.messages = s.messages) := by
  constructor
  · intro e he
    rcases send_state_cases s backend options with hst | ⟨a, ha⟩
    · rw [hst]
    · rw [ha] at he
      simp at he
  · intro e he
    rcases stream_state_cases s backendS options with hst | ⟨a, ha⟩
    · rw [hst]
    · rw [ha] at he
      simp at he

/-- Claim C5 witness: a failing send and a failing stream on a concrete
conversation leave the history intact. -/
theorem C5_failure_preserves_history_witness :
    (send ⟨[⟨Role.user, Content.str "hi"⟩], ⟨"m", 7/10, 1000, "", false, 3, 30000⟩⟩
        (fun _ _ => Except.error "boom") none).state.messages = [⟨Role.user, Content.str "hi"⟩] ∧
    (stream ⟨[⟨Role.user, Content.str "hi"⟩], ⟨"m", 7/10, 1000, "", false, 3, 30000⟩⟩
        (fun _ _ => Except.error "boom") none).state.messages = [⟨Role.user, Content.str "hi"⟩] := by
  constructor
  · exact (C5_failure_preserves_history
      ⟨[⟨Role.user, Content.str "hi"⟩], ⟨"m", 7/10, 1000, "", false, 3, 30000⟩⟩
      (fun _ _ => Except.error "boom") (fun _ _ => Except.error "boom") none).1
      ("AI API Error: " ++ "boom") rfl
  · exact (C5_failure_preserves_history
      ⟨[⟨Role.user, Content.str "hi"⟩], ⟨"m", 7/10, 1000, "", false, 3, 30000⟩⟩
      (fun _ _ => Except.error "boom") (fun _ _ => Except.error "boom") none).2
      ("AI Stream Error: " ++ "boom") rfl

/-- Claim C6: when the linearized conversation (system message, if the
system prompt is non-empty, followed by the stored messages) is empty, both
dispatch entry points fail with the EmptyConversationError message; when it
is non-empty but has no user-role entry, both fail with the NoUserTurnError
message.  In both cases the state is unchanged and the backend was invoked
zero times, so the error is raised before any backend call and never
retried. -/
theorem C6_validation_errors (s : ModelState)
    (backend : ChatRequest → Nat → Except String Completion)
    (backendS : ChatRequest → Nat → Except String StreamData)
    (options : Option RequestOptions) :
    (buildMessages s = [] →
      send s backend options = ⟨Except.error EmptyConversationError, s, 0⟩ ∧
      stream s backendS options = ⟨Except.error EmptyConversationError, s, [], 0⟩) ∧
    (buildMessages s ≠ [] → (∀ m ∈ buildMessages s, m.role ≠ Role.user) →
      send s backend options = ⟨Except.error NoUserTurnError, s, 0⟩ ∧
      stream s backendS options = ⟨Except.error NoUserTurnError, s, [], 0⟩) := by
  constructor
  · intro h
    have hv := validate_empty s h
    constructor
    · unfold send; rw [hv]
    · unfold stream; rw [hv]
  · intro h h2
    have hv := validate_noUser s h h2
    constructor
    · unfold send; rw [hv]
    · unfold stream; rw [hv]

/-- Claim C6 witness: an empty conversation with empty system prompt fails
with EmptyConversationError; a conversation holding only a system prompt
fails with NoUserTurnError; in all four dispatches the backend count is
zero. -/
theorem C6_validation_errors_witness :
    send ⟨[], ⟨"m", 7/10, 1000, "", false, 3, 30000⟩⟩
        (fun _ _ => Except.error "never") none =
      ⟨Except.error EmptyConversationError, ⟨[], ⟨"m", 7/10, 1000, "", false, 3, 30000⟩⟩, 0⟩ ∧
    stream ⟨[], ⟨"m", 7/10, 1000, "", false, 3, 30000⟩⟩
        (fun _ _ => Except.error "never") none =
      ⟨Except.error EmptyConversationError, ⟨[], ⟨"m", 7/10, 1000, "", false, 3, 30000⟩⟩, [], 0⟩ ∧
    send ⟨[], ⟨"m", 7/10, 1000, "You are terse.", false, 3, 30000⟩⟩
        (fun _ _ => Except.error "never") none =
      ⟨Except.error NoUserTurnError,
        ⟨[], ⟨"m", 7/10, 1000, "You are terse.", false, 3, 30000⟩⟩, 0⟩ ∧
    stream ⟨[], ⟨"m", 7/10, 1000, "You are terse.", false, 3, 30000⟩⟩
        (fun _ _ => Except.error "never") none =
      ⟨Except.error NoUserTurnError,
        ⟨[], ⟨"m", 7/10, 1000, "You are terse.", false, 3, 30000⟩⟩, [], 0⟩ := by
  have h1 := (C6_validation_errors ⟨[], ⟨"m", 7/10, 1000, "", false, 3, 30000⟩⟩
    (fun _ _ => Except.error "never") (fun _ _ => Except.error "never") none).1 rfl
  have h2 := (C6_validation_errors ⟨[], ⟨"m", 7/10, 1000, "You are terse.", false, 3, 30000⟩⟩
    (fun _ _ => Except.error "never") (fun _ _ => Except.error "never") none).2
    (by decide)
    (by
      intro m hm
      have hm2 : m ∈ [(⟨Role.system, Content.str "You are terse."⟩ : Message)] := hm
      rw [List.mem_singleton] at hm2
      subst hm2
      decide)
  exact ⟨h1.1, h1.2, h2.1, h2.2⟩

/-- Claim C7: in the reference model of the message array, any sequence of
addUserMessage/addAssistantMessage calls appends the built messages in call
order, the snapshot returned by getMessages holds exactly those messages,
and overwriting the snapshot cell with any value leaves the internal
history cell unchanged (getMessages allocates a fresh copy). -/
theorem C7_snapshot_isolation (h : RefModel.Heap) (r : Nat)
    (calls : List (ChatRole × Content)) (hr : r < h.cells.length) :
    RefModel.readRef (RefModel.addMessagesRef h r calls) r =
      RefModel.readRef h r ++ calls.map RefModel.mkMessage ∧
    RefModel.readRef (RefModel.getMessagesRef (RefModel.addMessagesRef h r calls) r).1
        (RefModel.getMessagesRef (RefModel.addMessagesRef h r calls) r).2 =
      RefModel.readRef h r ++ calls.map RefModel.mkMessage ∧
    ∀ v, RefModel.readRef
        (RefModel.writeRef (RefModel.getMessagesRef (RefModel.addMessagesRef h r calls) r).1
          (RefModel.getMessagesRef (RefModel.addMessagesRef h r calls) r).2 v) r =
      RefModel.readRef h r ++ calls.map RefModel.mkMessage := by
  obtain ⟨hlen, hread⟩ := RefModel.addMessagesRef_spec calls h r hr
  refine ⟨hread, ?_, ?_⟩
  · rw [RefModel.getMessagesRef]
    simp only [RefModel.allocRef]
    rw [RefModel.readRef_concat_new]
    exact hread
  · intro v
    rw [RefModel.getMessagesRef]
    simp only [RefModel.allocRef]
    have hr1 : r < (RefModel.addMessagesRef h r calls).cells.length := by
      rw [hlen]; exact hr
    have hne : ((RefModel.addMessagesRef h r calls).cells.length : Nat) ≠ r := by omega
    rw [RefModel.readRef_writeRef_ne _ _ _ _ hne]
    rw [RefModel.readRef_concat_old _ _ _ hr1]
    exact hread

/-- Claim C7 witness: one user message added to a fresh single-cell heap;
clearing the returned snapshot leaves the internal cell intact. -/
theorem C7_snapshot_isolation_witness :
    RefModel.readRef
        (RefModel.addMessagesRef ⟨[[]]⟩ 0 [(ChatRole.user, Content.str "hi")]) 0 =
      [⟨Role.user, Content.str "hi"⟩] ∧
    RefModel.readRef
        (RefModel.writeRef
          (RefModel.getMessagesRef
            (RefModel.addMessagesRef ⟨[[]]⟩ 0 [(ChatRole.user, Content.str "hi")]) 0).1
          (RefModel.getMessagesRef
            (RefModel.addMessagesRef ⟨[[]]⟩ 0 [(ChatRole.user, Content.str "hi")]) 0).2
          []) 0 =
      [⟨Role.user, Content.str "hi"⟩] := by
  have hw := C7_snapshot_isolation ⟨[[]]⟩ 0 [(ChatRole.user, Content.str "hi")] (by decide)
  exact ⟨hw.1, hw.2.2 []⟩

/-- Claim C8: clearMessages empties the history while preserving the system
prompt and every other configuration field; reset empties the history and
the system prompt while preserving every other configuration field. -/
theorem C8_clear_reset_frame (s : ModelState) :
    getMessages (clearMessages s) = [] ∧
    getSystemPrompt (clearMessages s) = getSystemPrompt s ∧
    (clearMessages s).config = s.config ∧
    getMessages (reset s) = [] ∧
    getSystemPrompt (reset s) = "" ∧
    (reset s).config.model = s.config.model ∧
    (reset s).config.temperature = s.config.temperature ∧
    (reset s).config.maxTokens = s.config.maxTokens ∧
    (reset s).config.debug = s.config.debug ∧
    (reset s).config.retryAttempts = s.config.retryAttempts ∧
    (reset s).config.timeout = s.config.timeout :=
  ⟨rfl, rfl, rfl, rfl, rfl, rfl, rfl, rfl, rfl, rfl, rfl⟩

/-- Claim C9: when the stream is created on the first backend attempt but
fails while being iterated, the failure propagates wrapped with the
AI Stream Error: prefix, the state is unchanged, the chunks delivered
before the failure still reached onChunk, and the backend was invoked
exactly once — no retry happens, whatever retryAttempts is. -/
theorem C9_stream_iteration_no_retry (s : ModelState) (chunks : List StreamChunk)
    (e : String) (options : Option RequestOptions)
    (hval : validateMessages s = Except.ok ())
    (hretry : 1 ≤ s.config.retryAttempts) :
    stream s (fun _ _ => Except.ok ⟨chunks, some e⟩) options =
      ⟨Except.error ("AI Stream Error: " ++ e), s,
        (chunks.map chunkContent).filter (fun c => c ≠ ""), 1⟩ := by
  unfold stream
  rw [hval]
  dsimp only
  rw [makeRequest_first_ok _ s.config.retryAttempts ⟨chunks, some e⟩ hretry rfl]
  dsimp only
  rw [processChunks_eq]

/-- Claim C9 witness: with retryAttempts = 5, an iteration failure after one
delivered chunk is surfaced immediately with a single backend invocation. -/
theorem C9_stream_iteration_no_retry_witness :
    stream ⟨[⟨Role.user, Content.str "hi"⟩], ⟨"m", 7/10, 1000, "", false, 5, 30000⟩⟩
        (fun _ _ => Except.ok ⟨[⟨[⟨some ⟨some "Hel"⟩⟩]⟩], some "net down"⟩) none =
      ⟨Except.error ("AI Stream Error: " ++ "net down"),
        ⟨[⟨Role.user, Content.str "hi"⟩], ⟨"m", 7/10, 1000, "", false, 5, 30000⟩⟩,
        ["Hel"], 1⟩ := by
  have hw := C9_stream_iteration_no_retry
    ⟨[⟨Role.user, Content.str "hi"⟩], ⟨"m", 7/10, 1000, "", false, 5, 30000⟩⟩
    [⟨[⟨some ⟨some "Hel"⟩⟩]⟩] "net down" none rfl (by decide)
  rw [hw]
  rfl

/-- Claim C10: sendMultipleMessages clears the whole existing history
before appending the supplied messages and dispatching — the outcome is
exactly that of dispatching from a state whose history is the supplied
messages alone, so every previously added message is discarded. -/
theorem C10_sendMultiple_discards (s : ModelState) (msgs : List (ChatRole × String))
    (backend : ChatRequest → Nat → Except String Completion)
    (options : Option RequestOptions) :
    sendMultipleMessages s msgs backend options =
      send ⟨msgs.map (fun rc => ⟨rc.1.toRole, Content.str rc.2⟩), s.config⟩ backend options := by
  have hfold : ∀ (l : List (ChatRole × String)) (st : ModelState),
      l.foldl (fun st rc => addMessage st (Content.str rc.2) rc.1) st =
        ⟨st.messages ++ l.map (fun rc => ⟨rc.1.toRole, Content.str rc.2⟩), st.config⟩ := by
    intro l
    induction l with
    | nil => intro st; simp
    | cons x xs ih =>
      intro st
      simp only [List.foldl, List.map]
      rw [ih]
      simp [addMessage]
  unfold sendMultipleMessages
  dsimp only
  rw [hfold]
  simp [clearMessages]

end AILib
